import Mathlib

/-!
Shallow embedding of the chat-session controller in `src/static/js/chatbot.js`
of the SuperLibrary repository, and theorems checking the design document
against it. The DOM container `chatMessages` is modelled as a list of nodes,
the controller state as the container plus the input field's value and the
in-memory `chatHistory`; the asynchronous fetch is modelled by passing its
outcome as an explicit environment parameter, with `sendMessage` split at its
single `await` point.
-/

namespace Chatbot

/-- A book record as delivered by the chatbot endpoint: `title` and `author`
required, `genre` and `rating` optional; `none` models an absent (JS
`undefined`) field. The rating is a number in the source, used only for
truthiness tests and string interpolation, modelled as an integer. -/
structure Book where
  title : String
  author : String
  genre : Option String
  rating : Option Int
  deriving DecidableEq

/-- Truthiness of an optional JS string: `undefined` and `""` are falsy. -/
def truthyStr : Option String → Bool
  | none => false
  | some s => decide (s ≠ "")

/-- Truthiness of an optional JS number: `undefined` and `0` are falsy. -/
def truthyNum : Option Int → Bool
  | none => false
  | some r => decide (r ≠ 0)

/-- Interpolation of a possibly-absent string in a JS template literal: an
absent value prints as the string "undefined". -/
def jsTemplate : Option String → String
  | some s => s
  | none => "undefined"

/-- The lines of one rendered book card. -/
structure RenderedCard where
  titleLine : String
  authorLine : String
  genreLine : Option String
  ratingLine : Option String
  deriving DecidableEq

/-- Embedding of the card markup built inside `addMessage` for each book
(chatbot.js lines 28-33): title and author lines always, the genre and rating
lines guarded by JS truthiness of the respective field. -/
def renderBookCard (book : Book) : RenderedCard :=
  { titleLine := book.title
  , authorLine := "by " ++ book.author
  , genreLine := if truthyStr book.genre then some (jsTemplate book.genre) else none
  , ratingLine :=
      if truthyNum book.rating then
        some ("⭐ " ++ toString (book.rating.getD 0) ++ "/5")
      else none }

/-- A node appended to the `chatMessages` container: a message div (with its
inner html and any appended book cards), a suggestions panel, or the typing
indicator div (id `typingIndicator`). -/
inductive Node where
  | message (isUser : Bool) (html : String) (cards : List RenderedCard)
  | suggestions (chips : List String)
  | typing
  deriving DecidableEq

/-- Embedding of `text.replace(/\n/g, '<br>')` (line 21): every newline
character is replaced by the four characters of "<br>". -/
def replaceNewlines (t : String) : String :=
  String.mk (t.data.flatMap fun c => if c = '\n' then "<br>".data else [c])

/-- Embedding of `addSuggestions` (lines 49-68): appends one panel node
holding one chip per label, in order. -/
def addSuggestions (suggestions : List String) (msgs : List Node) : List Node :=
  msgs ++ [Node.suggestions suggestions]

/-- Embedding of lines 42-44 of `addMessage`: the suggestion panel is appended
only when the suggestion list is non-empty. -/
def withSuggestions (suggestions : List String) (msgs : List Node) : List Node :=
  if suggestions.length > 0 then addSuggestions suggestions msgs else msgs

/-- Embedding of `addMessage` (lines 13-47) as the list of nodes it appends to
the container. `text` is `none` when the caller read an absent field: in the
plain-text branch `text.replace` then throws a TypeError before anything is
appended, modelled by `Except.error ()`; in the `book_list` branch an absent
`text` interpolates as "undefined" and nothing throws. A `type` other than
the two known kinds leaves the message body empty. -/
def addMessage (text : Option String) (isUser : Bool) (ty : String)
    (books : List Book) (suggestions : List String) : Except Unit (List Node) :=
  if ty = "text" then
    match text with
    | none => Except.error ()
    | some t =>
        Except.ok (withSuggestions suggestions
          [Node.message isUser (replaceNewlines t) []])
  else if ty = "book_list" then
    Except.ok (withSuggestions suggestions
      [Node.message isUser ("<strong>" ++ jsTemplate text ++ "</strong>")
        (books.map renderBookCard)])
  else
    Except.ok (withSuggestions suggestions [Node.message isUser "" []])

/-- Recogniser for the typing-indicator node. -/
def isTypingNode : Node → Bool
  | Node.typing => true
  | _ => false

/-- Embedding of `showTypingIndicator` (lines 70-82): unconditionally appends
a fresh indicator node; the source has no already-shown guard. -/
def showTypingIndicator (msgs : List Node) : List Node :=
  msgs ++ [Node.typing]

/-- Embedding of `hideTypingIndicator` (lines 84-89): `getElementById` yields
the first element with id `typingIndicator` in document order and `remove()`
deletes it; a no-op when none is present. -/
def hideTypingIndicator (msgs : List Node) : List Node :=
  msgs.eraseP isTypingNode

/-- Number of typing-indicator nodes currently in the container. -/
def countTyping (msgs : List Node) : Nat :=
  msgs.countP isTypingNode

/-- One record of the `chatHistory` array (lines 122-126); `bot` holds
`data.text`, which may be absent. -/
structure HistEntry where
  user : String
  bot : Option String
  timestamp : String
  deriving DecidableEq

/-- The mutable state touched by the controller: the `chatMessages` container,
the input field's value, and the in-memory history. -/
structure ChatState where
  chatMessages : List Node
  inputValue : String
  chatHistory : List HistEntry
  deriving DecidableEq

/-- Decoded JSON body of a response to POST /api/chatbot/message; every field
may be absent. -/
structure RespData where
  text : Option String
  type : Option String
  books : Option (List Book)
  suggestions : Option (List String)
  deriving DecidableEq

/-- Outcome of the message fetch, chosen by the environment: the promise
rejects (network error), or a response arrives carrying its HTTP success flag
`ok` and a body that either fails to decode as JSON (`none`, so
`response.json()` rejects) or decodes to a `RespData`. -/
inductive FetchOutcome where
  | netError
  | response (ok : Bool) (body : Option RespData)
  deriving DecidableEq

/-- Embedding of `v || d` on an optional string (line 119): JS `||` takes the
default when the left side is falsy, i.e. absent or the empty string. -/
def jsOrStr (v : Option String) (d : String) : String :=
  match v with
  | none => d
  | some s => if s = "" then d else s

/-- Whitespace characters stripped by JS `String.prototype.trim`. -/
def isJsWhitespace (c : Char) : Bool :=
  c == ' ' || c == '\t' || c == '\n' || c == '\r' || c == '\x0b' || c == '\x0c'

/-- Embedding of JS `String.prototype.trim`: strips leading and trailing
whitespace. -/
def jsTrim (s : String) : String :=
  String.mk (((s.data.dropWhile isJsWhitespace).reverse.dropWhile
    isJsWhitespace).reverse)

/-- The fixed fallback message rendered by the catch block (line 131). -/
def fallbackText : String := "Sorry, I'm having trouble connecting. Please try again."

/-- Embedding of the `catch` block of `sendMessage` (lines 128-132): log, hide
the indicator, render the fixed fallback message; the history is untouched. -/
def catchBlock (s : ChatState) : ChatState :=
  let hidden := hideTypingIndicator s.chatMessages
  match addMessage (some fallbackText) false "text" [] [] with
  | Except.error _ => { s with chatMessages := hidden }
  | Except.ok ns => { s with chatMessages := hidden ++ ns }

/-- Embedding of lines 91-102 of `sendMessage`, up to the point the request is
issued: trim the input, silently return when blank, append the user message,
clear the input, show the typing indicator. The second component is the
`message` field of the request payload, `none` when no request is issued. The
`Except.error` arm is unreachable: a present text never throws. -/
def sendPhase1 (s : ChatState) : ChatState × Option String :=
  let message := jsTrim s.inputValue
  if message = "" then (s, none)
  else
    match addMessage (some message) true "text" [] [] with
    | Except.error _ => (s, none)
    | Except.ok ns =>
        ({ chatMessages := showTypingIndicator (s.chatMessages ++ ns)
         , inputValue := ""
         , chatHistory := s.chatHistory }, some message)

/-- Embedding of lines 104-133 of `sendMessage`: handling of the pending
request whose payload carried `message`. On a received response the body is
decoded, the indicator hidden, the bot message rendered with the line-119
defaults, and the exchange pushed to the history; a throw anywhere inside the
`try` (rejected fetch, non-JSON body, or the TypeError raised on an absent
`text` in the plain-text branch) lands in the catch block. The HTTP success
flag of the response is never consulted. -/
def sendPhase2 (now : String) (message : String) (out : FetchOutcome)
    (s : ChatState) : ChatState :=
  match out with
  | FetchOutcome.netError => catchBlock s
  | FetchOutcome.response _ body =>
    match body with
    | none => catchBlock s
    | some data =>
      let hidden := hideTypingIndicator s.chatMessages
      match addMessage data.text false (jsOrStr data.type "text")
          (data.books.getD []) (data.suggestions.getD []) with
      | Except.error _ => catchBlock { s with chatMessages := hidden }
      | Except.ok ns =>
          { chatMessages := hidden ++ ns
          , inputValue := s.inputValue
          , chatHistory := s.chatHistory ++ [⟨message, data.text, now⟩] }

/-- Embedding of `sendMessage` (lines 91-133) as one complete request cycle:
phase 1 up to issuing the request, then response handling. `now` is the
timestamp taken at the history push and `out` the environment-chosen fetch
outcome. The second component is the payload's `message` field, `none` when no
request was issued. When the call returns, no request is pending: the
controller is idle again. -/
def sendMessage (now : String) (out : FetchOutcome) (s : ChatState) :
    ChatState × Option String :=
  match sendPhase1 s with
  | (s1, none) => (s1, none)
  | (s1, some m) => (sendPhase2 now m out s1, some m)

/-- Embedding of `handleKeyPress` (lines 135-139): Enter invokes
`sendMessage`, any other key does nothing. -/
def handleKeyPress (key : String) (now : String) (out : FetchOutcome)
    (s : ChatState) : ChatState × Option String :=
  if key = "Enter" then sendMessage now out s else (s, none)

/-- Embedding of a suggestion chip's click handler (lines 59-62): set the
input field to the chip's label, then call `sendMessage`. -/
def chipClick (label : String) (now : String) (out : FetchOutcome)
    (s : ChatState) : ChatState × Option String :=
  sendMessage now out { s with inputValue := label }

/-- Typing a label into the input field and pressing Enter: the field holds
the typed text and `handleKeyPress` fires with key "Enter". -/
def typeAndPressEnter (label : String) (now : String) (out : FetchOutcome)
    (s : ChatState) : ChatState × Option String :=
  handleKeyPress "Enter" now out { s with inputValue := label }

/-- Outcome of the startup GET /api/chatbot/suggestions: a rejection of the
fetch or of `response.json()` lands in `.catch` (`failed`); otherwise the
decoded body carries an optional `suggestions` array. -/
inductive SuggFetch where
  | failed
  | succeeded (suggestions : Option (List String))
  deriving DecidableEq

/-- Embedding of the startup suggestion loader (lines 142-151) as the nodes it
appends: on failure the error is logged to the console and nothing rendered;
on success, provided the field is present and non-empty, one panel with the
first four suggestions is appended after a 1000 ms delay. -/
def loadStartupSuggestions (out : SuggFetch) : List Node :=
  match out with
  | SuggFetch.failed => []
  | SuggFetch.succeeded suggestions =>
    match suggestions with
    | none => []
    | some l => if l.length > 0 then addSuggestions (l.take 4) [] else []

/-- The four hard-coded welcome chips (lines 5-10). -/
def welcomeSuggestions : List String :=
  ["Recommend a fantasy book", "Search for Stephen King",
   "Show top rated books", "What genres do you have?"]

/-- Embedding of startup (lines 3-11 together with 142-151): the welcome panel
is appended unconditionally after a 500 ms delay; the fetched panel, if any,
after a 1000 ms delay, hence afterwards. -/
def startup (out : SuggFetch) (msgs : List Node) : List Node :=
  addSuggestions welcomeSuggestions msgs ++ loadStartupSuggestions out

/-- Characterisation of when the message round trip takes the failure path:
the fetch rejected, the body failed to decode as JSON, or the decoded body
lacks `text` while the effective `type` is plain text. The HTTP success flag
plays no part. -/
def failurePathCond (out : FetchOutcome) : Bool :=
  match out with
  | FetchOutcome.netError => true
  | FetchOutcome.response _ body =>
    match body with
    | none => true
    | some d => decide (d.text = none) && decide (jsOrStr d.type "text" = "text")

/-- Recogniser for a rendered fallback error message node. -/
def isFallbackNode (n : Node) : Bool :=
  decide (n = Node.message false fallbackText [])

/-! ### Helper lemmas shared by the claim theorems -/

theorem jsTrim_of_all_ws {s : String} (h : s.data.all isJsWhitespace = true) :
    jsTrim s = "" := by
  have h1 : s.data.dropWhile isJsWhitespace = [] :=
    List.dropWhile_eq_nil_iff.mpr fun x hx => List.all_eq_true.mp h x hx
  simp [jsTrim, h1]

theorem forall_not_typing {msgs : List Node} (h : countTyping msgs = 0) :
    ∀ n ∈ msgs, ¬ isTypingNode n = true := by
  unfold countTyping at h
  exact List.countP_eq_zero.mp h

theorem hideTypingIndicator_of_clean {msgs : List Node}
    (h : ∀ n ∈ msgs, ¬ isTypingNode n = true) :
    hideTypingIndicator msgs = msgs :=
  List.eraseP_of_forall_not h

theorem hideTypingIndicator_clean_append {msgs : List Node} {u : Node}
    (h : ∀ n ∈ msgs, ¬ isTypingNode n = true) (hu : isTypingNode u = false) :
    hideTypingIndicator (msgs ++ [u, Node.typing]) = msgs ++ [u] := by
  unfold hideTypingIndicator
  rw [List.eraseP_append_right _ h,
    List.eraseP_cons_of_neg (by simp [hu]),
    List.eraseP_cons_of_pos (by simp [isTypingNode])]

theorem addMessage_text_eq (m : String) (isUser : Bool) :
    addMessage (some m) isUser "text" [] [] =
      Except.ok [Node.message isUser (replaceNewlines m) []] := by
  simp [addMessage, withSuggestions]

theorem addMessage_text_general (m : String) (isUser : Bool) (books : List Book)
    (suggs : List String) :
    addMessage (some m) isUser "text" books suggs =
      Except.ok (withSuggestions suggs
        [Node.message isUser (replaceNewlines m) []]) := by
  simp [addMessage]

theorem addMessage_book_list_eq (text : Option String) (isUser : Bool)
    (books : List Book) (suggs : List String) :
    addMessage text isUser "book_list" books suggs =
      Except.ok (withSuggestions suggs
        [Node.message isUser ("<strong>" ++ jsTemplate text ++ "</strong>")
          (books.map renderBookCard)]) := by
  simp [addMessage]

theorem addMessage_no_panel {text : Option String} {isUser : Bool} {ty : String}
    {books : List Book} {ns : List Node}
    (hm : addMessage text isUser ty books [] = Except.ok ns) :
    ∀ chips, Node.suggestions chips ∉ ns := by
  intro chips
  by_cases h1 : ty = "text"
  · subst h1
    cases text with
    | none => simp [addMessage] at hm
    | some t =>
        simp [addMessage, withSuggestions] at hm
        subst hm
        simp
  · by_cases h2 : ty = "book_list"
    · simp [addMessage, h1, h2, withSuggestions] at hm
      subst hm
      simp
    · simp [addMessage, h1, h2, withSuggestions] at hm
      subst hm
      simp

theorem addMessage_eq_error {text : Option String} {isUser : Bool} {ty : String}
    {books : List Book} {suggs : List String} {e : Unit}
    (h : addMessage text isUser ty books suggs = Except.error e) :
    ty = "text" ∧ text = none := by
  by_cases h1 : ty = "text"
  · subst h1
    cases text with
    | none => exact ⟨rfl, rfl⟩
    | some t => simp [addMessage, withSuggestions] at h
  · by_cases h2 : ty = "book_list" <;> simp [addMessage, h1, h2, withSuggestions] at h

theorem sendPhase1_eq (s : ChatState) (h : jsTrim s.inputValue ≠ "") :
    sendPhase1 s =
      ({ chatMessages := s.chatMessages ++
          [Node.message true (replaceNewlines (jsTrim s.inputValue)) [], Node.typing]
       , inputValue := ""
       , chatHistory := s.chatHistory }, some (jsTrim s.inputValue)) := by
  simp [sendPhase1, h, addMessage_text_eq, showTypingIndicator]

theorem catchBlock_eq (s : ChatState) :
    catchBlock s =
      { s with
        chatMessages := hideTypingIndicator s.chatMessages ++
          [Node.message false (replaceNewlines fallbackText) []] } := by
  simp [catchBlock, addMessage_text_eq]

theorem sendMessage_failure_eq (now : String) (out : FetchOutcome) (s : ChatState)
    (hclean : ∀ n ∈ s.chatMessages, ¬ isTypingNode n = true)
    (h : jsTrim s.inputValue ≠ "") (hf : failurePathCond out = true) :
    (sendMessage now out s).1 =
      { chatMessages := s.chatMessages ++
          [Node.message true (replaceNewlines (jsTrim s.inputValue)) [],
           Node.message false (replaceNewlines fallbackText) []]
      , inputValue := ""
      , chatHistory := s.chatHistory } := by
  have h1 := sendPhase1_eq s h
  have hu : isTypingNode (Node.message true (replaceNewlines (jsTrim s.inputValue)) []) = false := rfl
  cases out with
  | netError =>
      simp only [sendMessage, h1, sendPhase2, catchBlock_eq,
        hideTypingIndicator_clean_append hclean hu]
      simp
  | response okFlag body =>
      cases body with
      | none =>
          simp only [sendMessage, h1, sendPhase2, catchBlock_eq,
            hideTypingIndicator_clean_append hclean hu]
          simp
      | some d =>
          have hcond : d.text = none ∧ jsOrStr d.type "text" = "text" := by
            simpa [failurePathCond] using hf
          have herr : addMessage d.text false (jsOrStr d.type "text")
              (d.books.getD []) (d.suggestions.getD []) = Except.error () := by
            rw [hcond.1, hcond.2]; simp [addMessage]
          have hclean2 : ∀ n ∈ s.chatMessages ++
              [Node.message true (replaceNewlines (jsTrim s.inputValue)) []],
              ¬ isTypingNode n = true := by
            intro n hn
            rcases List.mem_append.mp hn with hn | hn
            · exact hclean n hn
            · simp only [List.mem_singleton] at hn
              subst hn; simp [isTypingNode]
          simp only [sendMessage, h1, sendPhase2, herr, catchBlock_eq,
            hideTypingIndicator_clean_append hclean hu,
            hideTypingIndicator_of_clean hclean2]
          simp

theorem sendMessage_success_history (now : String) (okFlag : Bool) (d : RespData)
    (s : ChatState) (h : jsTrim s.inputValue ≠ "")
    (hok : ¬ (d.text = none ∧ jsOrStr d.type "text" = "text")) :
    (sendMessage now (FetchOutcome.response okFlag (some d)) s).1.chatHistory =
      s.chatHistory ++ [⟨jsTrim s.inputValue, d.text, now⟩] := by
  have h1 := sendPhase1_eq s h
  rcases hm : addMessage d.text false (jsOrStr d.type "text")
      (d.books.getD []) (d.suggestions.getD []) with e | ns
  · exact absurd (addMessage_eq_error hm) fun hc => hok ⟨hc.2, hc.1⟩
  · simp only [sendMessage, h1, sendPhase2, hm]

/-! ### Claim theorems -/

/-- C1 counterexample: a response with a non-success HTTP status flag but a
well-formed JSON body carrying `text` is handled on the success path — the
exchange IS appended to the history and no fallback message is rendered —
refuting the claim that a non-2xx transport outcome takes the failure path. -/
theorem non_2xx_success_counterexample :
    (sendMessage "t0" (FetchOutcome.response false
        (some ⟨some "oops", none, none, none⟩)) ⟨[], "hello", []⟩).1.chatHistory =
      [⟨"hello", some "oops", "t0"⟩] ∧
    Node.message false fallbackText [] ∉
      (sendMessage "t0" (FetchOutcome.response false
        (some ⟨some "oops", none, none, none⟩)) ⟨[], "hello", []⟩).1.chatMessages := by
  decide

/-- C1 amended: from a state with no indicator and a non-blank input, the
failure path — indicator gone, fallback rendered after the user entry, history
untouched — is taken exactly when `failurePathCond` holds: the fetch rejected,
the body was not valid JSON, or `text` was absent while the effective `type`
is plain text. The HTTP status flag is ignored; in every other case the
success path appends the exchange to the history. -/
theorem response_failure_path (now : String) (out : FetchOutcome) (s : ChatState)
    (hclean : countTyping s.chatMessages = 0) (h : jsTrim s.inputValue ≠ "") :
    (failurePathCond out = true →
      (sendMessage now out s).1.chatMessages =
        s.chatMessages ++
          [Node.message true (replaceNewlines (jsTrim s.inputValue)) [],
           Node.message false (replaceNewlines fallbackText) []] ∧
      (sendMessage now out s).1.chatHistory = s.chatHistory ∧
      countTyping (sendMessage now out s).1.chatMessages = 0) ∧
    (failurePathCond out = false →
      ∃ okFlag d, out = FetchOutcome.response okFlag (some d) ∧
        (sendMessage now out s).1.chatHistory =
          s.chatHistory ++ [⟨jsTrim s.inputValue, d.text, now⟩]) := by
  constructor
  · intro hf
    have he := sendMessage_failure_eq now out s (forall_not_typing hclean) h hf
    rw [he]
    refine ⟨rfl, rfl, ?_⟩
    unfold countTyping at hclean ⊢
    simp [List.countP_append, List.countP_cons, isTypingNode, hclean]
  · intro hf
    cases out with
    | netError => simp [failurePathCond] at hf
    | response okFlag body =>
      cases body with
      | none => simp [failurePathCond] at hf
      | some d =>
        refine ⟨okFlag, d, rfl, ?_⟩
        have hok : ¬ (d.text = none ∧ jsOrStr d.type "text" = "text") := by
          intro hc
          simp [failurePathCond, hc.1, hc.2] at hf
        exact sendMessage_success_history now okFlag d s h hok

/-- Witness for C1 at a concrete rejected fetch: the history stays empty. -/
theorem response_failure_path_witness :
    (sendMessage "t0" FetchOutcome.netError ⟨[], "hello", []⟩).1.chatHistory = [] :=
  ((response_failure_path "t0" FetchOutcome.netError ⟨[], "hello", []⟩ rfl
    (by decide)).1 rfl).2.1

/-- C2: a transport failure after submitting "hello" leaves the transcript
with exactly the user entry and one fallback message appended, the input
cleared, the indicator absent, and the history exactly as before; the call
has returned, so no request is pending and the controller is idle again. -/
theorem transport_failure_after_hello (now : String) (s : ChatState)
    (hclean : countTyping s.chatMessages = 0) :
    (sendMessage now FetchOutcome.netError { s with inputValue := "hello" }).1 =
      { chatMessages := s.chatMessages ++
          [Node.message true "hello" [], Node.message false fallbackText []]
      , inputValue := ""
      , chatHistory := s.chatHistory } ∧
    countTyping
      (sendMessage now FetchOutcome.netError
        { s with inputValue := "hello" }).1.chatMessages = 0 ∧
    List.countP isFallbackNode
      (sendMessage now FetchOutcome.netError
        { s with inputValue := "hello" }).1.chatMessages =
      List.countP isFallbackNode s.chatMessages + 1 := by
  have e1 : replaceNewlines (jsTrim "hello") = "hello" := by decide
  have e2 : replaceNewlines fallbackText = fallbackText := by decide
  have hne : jsTrim ({ s with inputValue := "hello" } : ChatState).inputValue ≠ "" := by
    show jsTrim "hello" ≠ ""
    decide
  have he := sendMessage_failure_eq now FetchOutcome.netError
    { s with inputValue := "hello" } (forall_not_typing hclean) hne rfl
  rw [he]
  refine ⟨?_, ?_, ?_⟩
  · simp [e1, e2]
  · unfold countTyping at hclean ⊢
    simp [List.countP_append, List.countP_cons, isTypingNode, hclean]
  · simp only []
    simp [List.countP_append, List.countP_cons, isFallbackNode, e1, e2]

/-- Witness for C2 from the empty initial state. -/
theorem transport_failure_after_hello_witness :
    (sendMessage "t0" FetchOutcome.netError ⟨[], "hello", []⟩).1 =
      { chatMessages :=
          [Node.message true "hello" [], Node.message false fallbackText []]
      , inputValue := ""
      , chatHistory := [] } ∧
    countTyping
      (sendMessage "t0" FetchOutcome.netError ⟨[], "hello", []⟩).1.chatMessages = 0 ∧
    List.countP isFallbackNode
      (sendMessage "t0" FetchOutcome.netError ⟨[], "hello", []⟩).1.chatMessages =
      List.countP isFallbackNode ([] : List Node) + 1 :=
  transport_failure_after_hello "t0" ⟨[], "", []⟩ rfl

/-- C3 counterexample: two `show()` calls followed by one `hide()` leave an
indicator node behind, refuting both the only-if-not-already-shown guard and
the claim that any call sequence ending in `hide()` leaves no indicator. -/
theorem typing_indicator_counterexample :
    hideTypingIndicator (showTypingIndicator (showTypingIndicator [])) =
      [Node.typing] := by
  decide

/-- C3 amended: `show()` unconditionally appends a fresh indicator node, so
repeated `show()` without an intervening `hide()` accumulates several;
`hide()` removes the first indicator when present and is a no-op otherwise.
Hence from a state with no indicator, a `show()`/`hide()` pair restores the
state, and `hide()` alone — in particular twice in a row — changes nothing
and leaves no indicator. -/
theorem typing_indicator_amended (msgs : List Node) (h : countTyping msgs = 0) :
    hideTypingIndicator (showTypingIndicator msgs) = msgs ∧
    hideTypingIndicator msgs = msgs := by
  have hno := forall_not_typing h
  constructor
  · unfold showTypingIndicator hideTypingIndicator
    rw [List.eraseP_append_right _ hno,
      List.eraseP_cons_of_pos (by simp [isTypingNode])]
    simp
  · exact hideTypingIndicator_of_clean hno

/-- Witness for C3 amended at the empty container. -/
theorem typing_indicator_amended_witness :
    hideTypingIndicator (showTypingIndicator []) = [] ∧
    hideTypingIndicator ([] : List Node) = [] :=
  typing_indicator_amended [] rfl

/-- C4: submitting an input that is empty or consists only of whitespace is a
complete no-op: no transcript node is appended, no request issued, history
and input field are untouched. -/
theorem submit_whitespace_noop (now : String) (out : FetchOutcome) (s : ChatState)
    (h : s.inputValue.data.all isJsWhitespace = true) :
    sendMessage now out s = (s, none) := by
  have ht : jsTrim s.inputValue = "" := jsTrim_of_all_ws h
  have h1 : sendPhase1 s = (s, none) := by simp [sendPhase1, ht]
  simp [sendMessage, h1]

/-- Witness for C4 at the concrete whitespace input "   ". -/
theorem submit_whitespace_noop_witness :
    sendMessage "t0" FetchOutcome.netError ⟨[], "   ", []⟩ = (⟨[], "   ", []⟩, none) :=
  submit_whitespace_noop "t0" FetchOutcome.netError ⟨[], "   ", []⟩ (by decide)

/-- C5 counterexample: a book whose rating is present but equal to 0 renders
no rating line, because the source guards the line with JS truthiness, so
"shows rating exactly when it is present" fails. -/
theorem book_card_rating_zero_counterexample :
    (renderBookCard ⟨"Some Title", "Some Author", none, some 0⟩).ratingLine = none ∧
    (⟨"Some Title", "Some Author", none, some 0⟩ : Book).rating = some 0 := by
  decide

/-- C5 amended: a `book_list` message renders the heading plus one card per
book in order (the card list is the image of `books` under `renderBookCard`);
a card carries a genre line exactly when the genre is present and non-empty,
and a rating line exactly when the rating is present and non-zero, formatted
as "rating/5". -/
theorem book_list_rendering_amended (t : String) (books : List Book) :
    addMessage (some t) false "book_list" books [] =
      Except.ok [Node.message false ("<strong>" ++ t ++ "</strong>")
        (books.map renderBookCard)] ∧
    ∀ b : Book,
      ((renderBookCard b).genreLine ≠ none ↔ ∃ g, b.genre = some g ∧ g ≠ "") ∧
      ((renderBookCard b).ratingLine ≠ none ↔ ∃ r, b.rating = some r ∧ r ≠ 0) ∧
      ∀ r : Int, b.rating = some r → r ≠ 0 →
        (renderBookCard b).ratingLine = some ("⭐ " ++ toString r ++ "/5") := by
  constructor
  · simp [addMessage, withSuggestions, jsTemplate]
  · intro b
    refine ⟨?_, ?_, ?_⟩
    · cases hg : b.genre with
      | none => simp [renderBookCard, truthyStr, hg]
      | some g => by_cases hge : g = "" <;>
          simp [renderBookCard, truthyStr, hg, hge]
    · cases hr : b.rating with
      | none => simp [renderBookCard, truthyNum, hr]
      | some r => by_cases hre : r = 0 <;>
          simp [renderBookCard, truthyNum, hr, hre]
    · intro r hr hre
      simp [renderBookCard, truthyNum, hr, hre]

/-- Witness for C5 at the Dune/1984 example of the design document: the two
cards appear in order and the Dune card carries the "5/5" rating line. -/
theorem book_list_rendering_amended_witness :
    addMessage (some "Here are some books:") false "book_list"
        [⟨"Dune", "Frank Herbert", none, some 5⟩,
         ⟨"1984", "George Orwell", none, none⟩] [] =
      Except.ok [Node.message false
        ("<strong>" ++ "Here are some books:" ++ "</strong>")
        ([⟨"Dune", "Frank Herbert", none, some 5⟩,
          ⟨"1984", "George Orwell", none, none⟩].map renderBookCard)] ∧
    (renderBookCard ⟨"Dune", "Frank Herbert", none, some 5⟩).ratingLine =
      some ("⭐ " ++ toString (5 : Int) ++ "/5") :=
  ⟨(book_list_rendering_amended "Here are some books:"
      [⟨"Dune", "Frank Herbert", none, some 5⟩,
       ⟨"1984", "George Orwell", none, none⟩]).1,
   ((book_list_rendering_amended "Here are some books:"
      [⟨"Dune", "Frank Herbert", none, some 5⟩,
       ⟨"1984", "George Orwell", none, none⟩]).2
      ⟨"Dune", "Frank Herbert", none, some 5⟩).2.2 5 rfl (by decide)⟩

/-- C6: for every valid response body, omitted optional fields receive the
line-119 defaults before rendering. First conjunct: whenever `type` is absent
(whatever `books` and `suggestions` hold), the message is rendered as plain
text — no cards, with the suggestion panel exactly when the (defaulted)
suggestion list is non-empty — and the exchange recorded. Second conjunct:
under `type = "book_list"` an absent `books` defaults to the empty sequence,
so the heading card list is empty. Third conjunct: an absent `suggestions`
defaults to the empty sequence, so no suggestion panel is among the nodes the
renderer produces, whatever the effective type. -/
theorem defaults_applied (now message : String) (okFlag : Bool) (s : ChatState)
    (d : RespData) :
    (∀ t, d.type = none → d.text = some t →
      sendPhase2 now message (FetchOutcome.response okFlag (some d)) s =
        { chatMessages := hideTypingIndicator s.chatMessages ++
            [Node.message false (replaceNewlines t) []] ++
            (if (d.suggestions.getD []).length > 0
             then [Node.suggestions (d.suggestions.getD [])] else [])
        , inputValue := s.inputValue
        , chatHistory := s.chatHistory ++ [⟨message, some t, now⟩] }) ∧
    (d.type = some "book_list" → d.books = none →
      sendPhase2 now message (FetchOutcome.response okFlag (some d)) s =
        { chatMessages := hideTypingIndicator s.chatMessages ++
            [Node.message false ("<strong>" ++ jsTemplate d.text ++ "</strong>") []] ++
            (if (d.suggestions.getD []).length > 0
             then [Node.suggestions (d.suggestions.getD [])] else [])
        , inputValue := s.inputValue
        , chatHistory := s.chatHistory ++ [⟨message, d.text, now⟩] }) ∧
    (d.suggestions = none → ∀ ns,
      addMessage d.text false (jsOrStr d.type "text") (d.books.getD [])
        (d.suggestions.getD []) = Except.ok ns →
      ∀ chips, Node.suggestions chips ∉ ns) := by
  refine ⟨?_, ?_, ?_⟩
  · intro t h1 h2
    by_cases hs : (d.suggestions.getD []).length > 0 <;>
      simp [sendPhase2, h1, h2, jsOrStr, addMessage_text_general,
        withSuggestions, addSuggestions, hs]
  · intro h1 h2
    by_cases hs : (d.suggestions.getD []).length > 0 <;>
      simp [sendPhase2, h1, h2, jsOrStr, addMessage_book_list_eq,
        withSuggestions, addSuggestions, hs]
  · intro h1 ns hm chips
    rw [h1] at hm
    exact addMessage_no_panel hm chips

/-- Witness for C6 at a body with `type` absent but `books` and `suggestions`
both present: the books are ignored (plain-text default applied) and the
suggestion panel rendered. -/
theorem defaults_applied_witness :
    sendPhase2 "t0" "m0"
        (FetchOutcome.response true (some ⟨some "hi", none,
          some [⟨"Dune", "Frank Herbert", none, some 5⟩], some ["More"]⟩))
        ⟨[], "", []⟩ =
      { chatMessages := hideTypingIndicator [] ++
          [Node.message false (replaceNewlines "hi") []] ++
          (if ((some ["More"] : Option (List String)).getD []).length > 0
           then [Node.suggestions ((some ["More"] : Option (List String)).getD [])]
           else [])
      , inputValue := ""
      , chatHistory := [] ++ [⟨"m0", some "hi", "t0"⟩] } :=
  (defaults_applied "t0" "m0" true ⟨[], "", []⟩
    ⟨some "hi", none, some [⟨"Dune", "Frank Herbert", none, some 5⟩],
     some ["More"]⟩).1 "hi" rfl rfl

/-- C7 counterexample: submitting the raw input " hello" (leading space)
issues a request whose `message` field is the trimmed "hello", not the raw
input, refuting "the message field of the request body equals the raw
submitted input". -/
theorem payload_trimmed_counterexample :
    (sendPhase1 ⟨[], " hello", []⟩).2 = some "hello" ∧
    (" hello" : String) ≠ "hello" := by
  decide

/-- C7 amended: for every input that is non-empty after trimming, submit
appends the user transcript entry (displaying the trimmed text), clears the
input field, shows the typing indicator, and issues the request whose
`message` field equals the TRIMMED raw input. -/
theorem submit_nonempty_amended (s : ChatState) (h : jsTrim s.inputValue ≠ "") :
    sendPhase1 s =
      ({ chatMessages := s.chatMessages ++
          [Node.message true (replaceNewlines (jsTrim s.inputValue)) [],
           Node.typing]
       , inputValue := ""
       , chatHistory := s.chatHistory }, some (jsTrim s.inputValue)) :=
  sendPhase1_eq s h

/-- Witness for C7 amended at the concrete input " hi". -/
theorem submit_nonempty_amended_witness :
    sendPhase1 ⟨[], " hi", []⟩ =
      ({ chatMessages :=
          [Node.message true (replaceNewlines (jsTrim " hi")) [], Node.typing]
       , inputValue := ""
       , chatHistory := [] }, some (jsTrim " hi")) :=
  submit_nonempty_amended ⟨[], " hi", []⟩ (by decide)

/-- C8: clicking a suggestion chip with a given label and typing that exact
label then pressing Enter invoke the identical send path and produce
identical outcomes, whatever the state and fetch outcome. -/
theorem chip_equals_typing (label now : String) (out : FetchOutcome)
    (s : ChatState) :
    chipClick label now out s = typeAndPressEnter label now out s := by
  simp [chipClick, typeAndPressEnter, handleKeyPress]

/-- C9: the startup loader renders nothing on fetch failure, and on success
every panel it appends holds exactly the first four fetched suggestions: at
most 4 chips, an initial segment of the fetched list, order preserved. -/
theorem loader_at_most_four :
    loadStartupSuggestions SuggFetch.failed = [] ∧
    ∀ l : List String, ∀ n ∈ loadStartupSuggestions (SuggFetch.succeeded (some l)),
      n = Node.suggestions (l.take 4) ∧ (l.take 4).length ≤ 4 ∧
      l.take 4 ++ l.drop 4 = l := by
  refine ⟨rfl, ?_⟩
  intro l n hn
  by_cases hl : l.length > 0
  · simp only [loadStartupSuggestions, addSuggestions, List.nil_append,
      if_pos hl, List.mem_singleton] at hn
    subst hn
    refine ⟨rfl, ?_, List.take_append_drop 4 l⟩
    rw [List.length_take]
    exact min_le_left _ _
  · simp [loadStartupSuggestions, addSuggestions, hl] at hn

/-- Witness for C9 at a five-element fetched list: the panel holds the first
four labels. -/
theorem loader_at_most_four_witness :
    Node.suggestions (["a", "b", "c", "d", "e"].take 4) =
      Node.suggestions (["a", "b", "c", "d", "e"].take 4) ∧
    ((["a", "b", "c", "d", "e"] : List String).take 4).length ≤ 4 ∧
    ["a", "b", "c", "d", "e"].take 4 ++ ["a", "b", "c", "d", "e"].drop 4 =
      ["a", "b", "c", "d", "e"] :=
  loader_at_most_four.2 ["a", "b", "c", "d", "e"]
    (Node.suggestions (["a", "b", "c", "d", "e"].take 4)) (by decide)

/-- C10: on startup, whatever the suggestion fetch does, exactly one welcome
panel holding the four hard-coded chips is appended first, followed only by
whatever the loader renders. -/
theorem startup_welcome_panel (out : SuggFetch) (msgs : List Node) :
    startup out msgs =
      msgs ++ [Node.suggestions
        ["Recommend a fantasy book", "Search for Stephen King",
         "Show top rated books", "What genres do you have?"]] ++
      loadStartupSuggestions out := by
  simp [startup, addSuggestions, welcomeSuggestions]

end Chatbot
